import Mathlib

/-!
Shallow embedding of the host/guest event-loop bridge from
`minimal_asyncio.py` and `QGuiApplication_asyncio.py`.

Both files define an `AsyncHelper` bridge that runs an asyncio event loop
("guest") in bounded bursts inside the Qt event loop ("host").  We model
the bridge's state, the Qt event queue of posted re-entry events, and the
asyncio loop's ready callbacks, and give each method of the source as a
state-transformer returning the new state together with a trace of
observable effects.
-/

/-- Continuations a posted host event can carry.  In the source the only
continuation ever posted is the bridge's bound method `continue_loop`. -/
inductive GuestCont
  | continueLoop
deriving DecidableEq

/-- Qt's reserved user event type base, `QEvent.User` (value 1000). -/
def QEventUser : Nat := 1000

/-- A Qt event: its numeric type, and the `fn` attribute when present.
Re-entry events carry `some fn`; a foreign event of another origin has no
`fn` attribute, modelled as `none`. -/
structure QEventT where
  type : Nat
  fn : Option GuestCont
deriving DecidableEq

/-- Observable effects of executing bridge code. -/
inductive Effect
  | setEventLoop (loopId : Nat)
  | createTask (entryId : Nat)
  | callSoon
  | loopStop
  | postEvent (receiverId : Nat)
  | raised (msg : String)
  | osExit (code : Nat)
deriving DecidableEq

/-- The message of the exception raised when no entry point is set
(identical string in both source files). -/
def noEntryMsg : String := "No entry point for the asyncio event loop was set."

namespace AsyncHelper

/-- `AsyncHelper.ReenterQtEvent.__init__(fn)`: constructs a QEvent of type
`QEvent.User + 1` whose `fn` attribute is the given continuation.  The
constructor body is identical in both source files. -/
def ReenterQtEvent (fn : GuestCont) : QEventT :=
  { type := QEventUser + 1, fn := some fn }

/-- `AsyncHelper.ReenterQtObject.event(event)`: when the event's type is
`QEvent.User + 1` it calls `event.fn()` and returns `True`; otherwise it
returns `False`.  Accessing `event.fn` on an event without that attribute
raises `AttributeError`.  The result records the handled flag together
with the list of continuations invoked, in order.  The method body is
identical in both source files. -/
def ReenterQtObject.event (ev : QEventT) : Except String (Bool × List GuestCont) :=
  if ev.type = QEventUser + 1 then
    match ev.fn with
    | some f => Except.ok (true, [f])
    | none => Except.error "AttributeError"
  else
    Except.ok (false, [])

end AsyncHelper

namespace QGuiApp

/-!
Model of `QGuiApplication_asyncio.py`'s `AsyncHelper`: the version with a
`done` flag, `on_worker_started`, `on_worker_done` and a guarded
`continue_loop`.
-/

/-- The `AsyncHelper` instance attributes set in `__init__`: the
re-entry receiver object `self.reenter_qt`, `self.entry` (`none` when
unset/falsy), the asyncio loop object `self.loop` (objects are modelled
by identity as numeric ids), and `self.done`. -/
structure HelperState where
  reenter_qt : Nat
  entry : Option Nat
  loop : Nat
  done : Bool
deriving DecidableEq

/-- Whole-system state: the helper, the number of pending
`next_guest_run_schedule` callbacks scheduled in the asyncio loop via
`call_soon`, the Qt event queue holding posted (unconsumed) events in
FIFO order, and the number of root tasks created on the loop. -/
structure World where
  helper : HelperState
  ngrsScheduled : Nat
  qtQueue : List QEventT
  rootTasks : Nat
deriving DecidableEq

/-- `AsyncHelper.next_guest_run_schedule`: executes `self.loop.stop()`
and then `QGuiApplication.postEvent(self.reenter_qt,
self.ReenterQtEvent(self.continue_loop))`, appending one re-entry event
to the Qt queue. -/
def next_guest_run_schedule (w : World) : World × List Effect :=
  ({ w with qtQueue := w.qtQueue ++ [AsyncHelper.ReenterQtEvent GuestCont.continueLoop] },
   [Effect.loopStop, Effect.postEvent w.helper.reenter_qt])

/-- Runs `n` pending `next_guest_run_schedule` callbacks in sequence,
accumulating their effects.  These are the only callbacks the bridge ever
schedules on the asyncio loop. -/
def drainCallbacks : Nat → World → World × List Effect
  | 0, w => (w, [])
  | n + 1, w =>
    let p := next_guest_run_schedule w
    let q := drainCallbacks n p.1
    (q.1, p.2 ++ q.2)

/-- `self.loop.run_forever()`: runs the loop's ready callbacks.  Every
callback the bridge schedules is `next_guest_run_schedule`, which stops
the loop, so `run_forever` returns once the pending callbacks have run. -/
def run_forever (w : World) : World × List Effect :=
  drainCallbacks w.ngrsScheduled { w with ngrsScheduled := 0 }

/-- The state just before `self.loop.run_forever()` inside
`on_worker_started`: a root task for `entry` has been created,
`next_guest_run_schedule` has been scheduled via `call_soon`, and
`self.done` has been set to `False`. -/
def startPrepared (w : World) : World :=
  { w with rootTasks := w.rootTasks + 1,
           ngrsScheduled := w.ngrsScheduled + 1,
           helper := { w.helper with done := false } }

/-- `AsyncHelper.on_worker_started`: raises when `self.entry` is falsy;
otherwise sets the event loop, creates a task for `self.entry()`,
schedules `next_guest_run_schedule`, sets `self.done = False`, and runs
the loop until it stops. -/
def on_worker_started (w : World) : World × List Effect :=
  match w.helper.entry with
  | none => (w, [Effect.raised noEntryMsg])
  | some e =>
    let p := run_forever (startPrepared w)
    (p.1, [Effect.setEventLoop w.helper.loop, Effect.createTask e, Effect.callSoon] ++ p.2)

/-- `AsyncHelper.on_worker_done`: sets `self.done = True`. -/
def on_worker_done (w : World) : World × List Effect :=
  ({ w with helper := { w.helper with done := true } }, [])

/-- `AsyncHelper.continue_loop`: when `self.done` is not set, schedules
`next_guest_run_schedule` via `call_soon` and runs the loop again;
otherwise does nothing. -/
def continue_loop (w : World) : World × List Effect :=
  if w.helper.done then (w, [])
  else
    let p := run_forever { w with ngrsScheduled := w.ngrsScheduled + 1 }
    (p.1, Effect.callSoon :: p.2)

/-- Interpretation of a carried continuation: the only continuation the
bridge posts is its own `continue_loop`. -/
def runCont (c : GuestCont) (w : World) : World × List Effect :=
  match c with
  | GuestCont.continueLoop => continue_loop w

/-- Runs a list of continuations in order. -/
def runConts : List GuestCont → World → World × List Effect
  | [], w => (w, [])
  | c :: cs, w =>
    let p := runCont c w
    let q := runConts cs p.1
    (q.1, p.2 ++ q.2)

/-- Qt host dispatch of one posted event: the front of the queue is
removed and delivered to the registered receiver through
`ReenterQtObject.event`; the continuations it invokes then run. -/
def deliverEvent (w : World) : World × List Effect :=
  match w.qtQueue with
  | [] => (w, [])
  | ev :: rest =>
    let w1 := { w with qtQueue := rest }
    match AsyncHelper.ReenterQtObject.event ev with
    | Except.ok pr => runConts pr.2 w1
    | Except.error m => (w1, [Effect.raised m])

/-- External stimuli that can drive the bridge: the worker's start
signal (slot `on_worker_started`), Qt delivering the next posted event,
and the worker's done signal (slot `on_worker_done`). -/
inductive Act
  | start
  | deliver
  | signalDone
deriving DecidableEq

/-- One stimulus, with its effect trace. -/
def stepE (w : World) (a : Act) : World × List Effect :=
  match a with
  | Act.start => on_worker_started w
  | Act.deliver => deliverEvent w
  | Act.signalDone => on_worker_done w

/-- One stimulus, state only. -/
def step (w : World) (a : Act) : World := (stepE w a).1

/-- The state after `AsyncHelper.__init__(worker, entry)` in a fresh
process: empty Qt queue, no scheduled callbacks, no tasks, `done = False`. -/
def initWorld (rq loopId : Nat) (entry : Option Nat) : World :=
  { helper := { reenter_qt := rq, entry := entry, loop := loopId, done := false },
    ngrsScheduled := 0, qtQueue := [], rootTasks := 0 }

/-- States reachable from `w0` by any sequence of stimuli. -/
inductive Reachable (w0 : World) : World → Prop
  | refl : Reachable w0 w0
  | step : ∀ w a, Reachable w0 w → Reachable w0 (step w a)

/-- States reachable from `w0` when the start signal is only delivered
while no posted re-entry event is outstanding (an idle bridge). -/
inductive ReachableIdleStart (w0 : World) : World → Prop
  | refl : ReachableIdleStart w0 w0
  | start : ∀ w, ReachableIdleStart w0 w → w.qtQueue = [] →
      ReachableIdleStart w0 (step w Act.start)
  | deliver : ∀ w, ReachableIdleStart w0 w →
      ReachableIdleStart w0 (step w Act.deliver)
  | done : ∀ w, ReachableIdleStart w0 w →
      ReachableIdleStart w0 (step w Act.signalDone)

/-- The re-entry event as it sits in the Qt queue. -/
def tokenEv : QEventT := AsyncHelper.ReenterQtEvent GuestCont.continueLoop

end QGuiApp

namespace Minimal

/-!
Model of `minimal_asyncio.py`'s `AsyncHelper`: no `done` flag,
`launch_guest_run` instead of `on_worker_started`, an unguarded
`continue_loop`, and a `set_entry` setter.
-/

/-- The `AsyncHelper` instance attributes set in `__init__`:
`self.reenter_qt`, `self.entry` (`none` when unset/falsy) and
`self.loop` (objects modelled by identity as numeric ids). -/
structure HelperState where
  reenter_qt : Nat
  entry : Option Nat
  loop : Nat
deriving DecidableEq

/-- Whole-system state for the minimal variant. -/
structure World where
  helper : HelperState
  ngrsScheduled : Nat
  qtQueue : List QEventT
  rootTasks : Nat
deriving DecidableEq

/-- `AsyncHelper.set_entry(entry)`: assigns `self.entry = entry` and
nothing else. -/
def set_entry (h : HelperState) (e : Option Nat) : HelperState × List Effect :=
  ({ h with entry := e }, [])

/-- `AsyncHelper.next_guest_run_schedule`: executes `self.loop.stop()`
and then `QApplication.postEvent(self.reenter_qt,
self.ReenterQtEvent(self.continue_loop))`. -/
def next_guest_run_schedule (w : World) : World × List Effect :=
  ({ w with qtQueue := w.qtQueue ++ [AsyncHelper.ReenterQtEvent GuestCont.continueLoop] },
   [Effect.loopStop, Effect.postEvent w.helper.reenter_qt])

/-- Runs `n` pending `next_guest_run_schedule` callbacks in sequence. -/
def drainCallbacks : Nat → World → World × List Effect
  | 0, w => (w, [])
  | n + 1, w =>
    let p := next_guest_run_schedule w
    let q := drainCallbacks n p.1
    (q.1, p.2 ++ q.2)

/-- `self.loop.run_forever()` for the minimal variant. -/
def run_forever (w : World) : World × List Effect :=
  drainCallbacks w.ngrsScheduled { w with ngrsScheduled := 0 }

/-- `AsyncHelper.launch_guest_run`: raises when `self.entry` is falsy;
otherwise sets the event loop, creates a task for `self.entry()`,
schedules `next_guest_run_schedule`, and runs the loop until it stops. -/
def launch_guest_run (w : World) : World × List Effect :=
  match w.helper.entry with
  | none => (w, [Effect.raised noEntryMsg])
  | some e =>
    let p := run_forever
      { w with rootTasks := w.rootTasks + 1, ngrsScheduled := w.ngrsScheduled + 1 }
    (p.1, [Effect.setEventLoop w.helper.loop, Effect.createTask e, Effect.callSoon] ++ p.2)

/-- `AsyncHelper.continue_loop` (minimal variant): unconditionally
schedules `next_guest_run_schedule` and runs the loop again. -/
def continue_loop (w : World) : World × List Effect :=
  let p := run_forever { w with ngrsScheduled := w.ngrsScheduled + 1 }
  (p.1, Effect.callSoon :: p.2)

end Minimal

/-- The handler connected to the application's `aboutToQuit` signal in
`QGuiApplication_asyncio.py`'s `main`: `lambda: os._exit(5)`.  The
effect trace of running it is a single immediate process termination
with status 5 and nothing else (no task cancellation, no cleanup). -/
def aboutToQuitHandler : List Effect := [Effect.osExit 5]

namespace QGuiApp

/-- At most one unconsumed re-entry event: the asyncio loop has no pending
scheduled callback between stimuli, and the Qt queue is empty or holds
exactly one re-entry event. -/
def TokenInv (w : World) : Prop :=
  w.ngrsScheduled = 0 ∧ (w.qtQueue = [] ∨ w.qtQueue = [tokenEv])

end QGuiApp

namespace QGuiApp

lemma drainCallbacks_fst (n : Nat) (w : World) :
    (drainCallbacks n w).1 = { w with qtQueue := w.qtQueue ++ List.replicate n tokenEv } := by
  induction n generalizing w with
  | zero => simp [drainCallbacks]
  | succ k ih =>
      simp [drainCallbacks, next_guest_run_schedule, ih, tokenEv, List.replicate_succ,
            List.append_assoc]

lemma drainCallbacks_no_raise (n : Nat) (w : World) (m : String) :
    Effect.raised m ∉ (drainCallbacks n w).2 := by
  induction n generalizing w with
  | zero => simp [drainCallbacks]
  | succ k ih => simp [drainCallbacks, next_guest_run_schedule, ih]

lemma step_start_of_entry (w : World) (e : Nat) (he : w.helper.entry = some e) :
    step w Act.start =
      { w with rootTasks := w.rootTasks + 1,
               helper := { w.helper with done := false },
               ngrsScheduled := 0,
               qtQueue := w.qtQueue ++ List.replicate (w.ngrsScheduled + 1) tokenEv } := by
  simp [step, stepE, on_worker_started, he, run_forever, startPrepared, drainCallbacks_fst]

lemma step_start_of_no_entry (w : World) (he : w.helper.entry = none) :
    step w Act.start = w := by
  simp [step, stepE, on_worker_started, he]

lemma step_deliver_empty (w : World) (h : w.qtQueue = []) :
    step w Act.deliver = w := by
  simp [step, stepE, deliverEvent, h]

lemma event_tokenEv :
    AsyncHelper.ReenterQtObject.event tokenEv =
      Except.ok (true, [GuestCont.continueLoop]) := by
  simp [AsyncHelper.ReenterQtObject.event, tokenEv, AsyncHelper.ReenterQtEvent]

lemma step_deliver_token_done (w : World) (rest : List QEventT)
    (h : w.qtQueue = tokenEv :: rest) (hd : w.helper.done = true) :
    step w Act.deliver = { w with qtQueue := rest } := by
  simp [step, stepE, deliverEvent, h, event_tokenEv, runConts, runCont, continue_loop, hd]

lemma step_deliver_token_not_done (w : World) (rest : List QEventT)
    (h : w.qtQueue = tokenEv :: rest) (hd : w.helper.done = false) :
    step w Act.deliver =
      { w with ngrsScheduled := 0,
               qtQueue := rest ++ List.replicate (w.ngrsScheduled + 1) tokenEv } := by
  simp [step, stepE, deliverEvent, h, event_tokenEv, runConts, runCont, continue_loop, hd,
        run_forever, drainCallbacks_fst]

lemma step_signalDone (w : World) :
    step w Act.signalDone = { w with helper := { w.helper with done := true } } := by
  simp [step, stepE, on_worker_done]

lemma tokenInv_init (rq l : Nat) (e : Option Nat) : TokenInv (initWorld rq l e) :=
  ⟨rfl, Or.inl rfl⟩

lemma tokenInv_preserved_start (w : World) (hw : TokenInv w) (hq : w.qtQueue = []) :
    TokenInv (step w Act.start) := by
  obtain ⟨h1, _⟩ := hw
  cases he : w.helper.entry with
  | none => rw [step_start_of_no_entry w he]; exact ⟨h1, Or.inl hq⟩
  | some e =>
      rw [step_start_of_entry w e he]
      exact ⟨rfl, Or.inr (by simp [hq, h1])⟩

lemma tokenInv_preserved_deliver (w : World) (hw : TokenInv w) :
    TokenInv (step w Act.deliver) := by
  obtain ⟨h1, h2⟩ := hw
  rcases h2 with h2 | h2
  · rw [step_deliver_empty w h2]; exact ⟨h1, Or.inl h2⟩
  · cases hd : w.helper.done with
    | true => rw [step_deliver_token_done w [] h2 hd]; exact ⟨h1, Or.inl rfl⟩
    | false =>
        rw [step_deliver_token_not_done w [] h2 hd]
        exact ⟨rfl, Or.inr (by simp [h1])⟩

lemma tokenInv_preserved_done (w : World) (hw : TokenInv w) :
    TokenInv (step w Act.signalDone) := by
  obtain ⟨h1, h2⟩ := hw
  rw [step_signalDone]
  exact ⟨h1, h2⟩

end QGuiApp

namespace QGuiApp

lemma drainCallbacks_one (w : World) :
    drainCallbacks 1 w =
      ((next_guest_run_schedule w).1,
       [Effect.loopStop, Effect.postEvent w.helper.reenter_qt]) := rfl

lemma continue_loop_effects_of_not_done (w : World) (hd : w.helper.done = false)
    (hn : w.ngrsScheduled = 0) :
    (continue_loop w).2 =
      [Effect.callSoon, Effect.loopStop, Effect.postEvent w.helper.reenter_qt] := by
  simp [continue_loop, hd, run_forever, hn, drainCallbacks_one]

end QGuiApp

/-- C1 (counterexample): the claim's conclusion — no state with two
unconsumed Re-entry Tokens is reachable — is false: delivering the start
signal twice in a row (nothing in the code prevents a second start while
a token is outstanding) reaches a state whose Qt queue holds two
unconsumed re-entry events. -/
theorem C1_two_tokens_reachable :
    QGuiApp.Reachable (QGuiApp.initWorld 0 1 (some 0))
      (QGuiApp.step (QGuiApp.step (QGuiApp.initWorld 0 1 (some 0)) QGuiApp.Act.start)
        QGuiApp.Act.start) ∧
    (QGuiApp.step (QGuiApp.step (QGuiApp.initWorld 0 1 (some 0)) QGuiApp.Act.start)
        QGuiApp.Act.start).qtQueue.length = 2 :=
  ⟨QGuiApp.Reachable.step _ _ (QGuiApp.Reachable.step _ _ QGuiApp.Reachable.refl),
   by decide⟩

/-- C1 (amended): provided the start signal is only delivered while no
Re-entry Token is outstanding (an idle bridge), every reachable state has
at most one unconsumed Re-entry Token in the host queue: the
burst-boundary callback stops the loop and posts exactly one token, each
delivery consumes one token before at most one new token is posted, and
no other operation posts a token. -/
theorem C1_single_token_of_idle_start (rq l : Nat) (e : Option Nat) (w : QGuiApp.World)
    (h : QGuiApp.ReachableIdleStart (QGuiApp.initWorld rq l e) w) :
    w.qtQueue.length ≤ 1 := by
  have hinv : QGuiApp.TokenInv w := by
    induction h with
    | refl => exact QGuiApp.tokenInv_init rq l e
    | start w' hr hq ih => exact QGuiApp.tokenInv_preserved_start w' ih hq
    | deliver w' hr ih => exact QGuiApp.tokenInv_preserved_deliver w' ih
    | done w' hr ih => exact QGuiApp.tokenInv_preserved_done w' ih
  rcases hinv.2 with h2 | h2 <;> simp [h2]

/-- C1 (witness): after one start from the initial world the queue holds
at most one token. -/
theorem C1_single_token_of_idle_start_witness :
    (QGuiApp.step (QGuiApp.initWorld 0 1 (some 0)) QGuiApp.Act.start).qtQueue.length ≤ 1 :=
  C1_single_token_of_idle_start 0 1 (some 0) _
    (QGuiApp.ReachableIdleStart.start _ QGuiApp.ReachableIdleStart.refl rfl)

/-- C2: starting the bridge with an unset (falsy) entry point raises the
configuration error and performs no other effect — the state is unchanged
(no scheduler installed, no task created, no token posted) in both the
`on_worker_started` and the `launch_guest_run` variant. -/
theorem C2_start_without_entry_raises (wq : QGuiApp.World) (wm : Minimal.World)
    (hq : wq.helper.entry = none) (hm : wm.helper.entry = none) :
    QGuiApp.on_worker_started wq = (wq, [Effect.raised noEntryMsg]) ∧
    Minimal.launch_guest_run wm = (wm, [Effect.raised noEntryMsg]) := by
  constructor
  · simp [QGuiApp.on_worker_started, hq]
  · simp [Minimal.launch_guest_run, hm]

/-- C2 (witness): concrete bridges with no entry point raise on start. -/
theorem C2_start_without_entry_raises_witness :
    QGuiApp.on_worker_started ⟨⟨0, none, 1, false⟩, 0, [], 0⟩ =
      (⟨⟨0, none, 1, false⟩, 0, [], 0⟩, [Effect.raised noEntryMsg]) ∧
    Minimal.launch_guest_run ⟨⟨0, none, 1⟩, 0, [], 0⟩ =
      (⟨⟨0, none, 1⟩, 0, [], 0⟩, [Effect.raised noEntryMsg]) :=
  C2_start_without_entry_raises _ _ rfl rfl

/-- C3: once the done flag is set, `continue_loop` — the continuation a
pending Re-entry Token delivers — is a no-op: no callback is scheduled,
the scheduler is not restarted, and the bridge state is unchanged. -/
theorem C3_resume_after_done_is_noop (w : QGuiApp.World) (hd : w.helper.done = true) :
    QGuiApp.continue_loop w = (w, []) := by
  simp [QGuiApp.continue_loop, hd]

/-- C3 (witness): a concrete done bridge is left unchanged by resume. -/
theorem C3_resume_after_done_is_noop_witness :
    QGuiApp.continue_loop ⟨⟨0, some 0, 1, true⟩, 0, [], 1⟩ =
      (⟨⟨0, some 0, 1, true⟩, 0, [], 1⟩, []) :=
  C3_resume_after_done_is_noop _ rfl

/-- C4 (counterexample): a second start while a run is active does not
fail fast: its effect trace is the normal start trace (set loop, create
task, schedule callback, stop, post) with no raised error, a second root
task is created, and a second token is posted. -/
theorem C4_second_start_does_not_fail :
    (QGuiApp.stepE (QGuiApp.step (QGuiApp.initWorld 0 1 (some 0)) QGuiApp.Act.start)
        QGuiApp.Act.start).2 =
      [Effect.setEventLoop 1, Effect.createTask 0, Effect.callSoon,
       Effect.loopStop, Effect.postEvent 0] ∧
    (QGuiApp.step (QGuiApp.step (QGuiApp.initWorld 0 1 (some 0)) QGuiApp.Act.start)
        QGuiApp.Act.start).rootTasks = 2 ∧
    (QGuiApp.step (QGuiApp.step (QGuiApp.initWorld 0 1 (some 0)) QGuiApp.Act.start)
        QGuiApp.Act.start).qtQueue.length = 2 := by
  refine ⟨?_, ?_, ?_⟩ <;> rfl

/-- C4 (amended): a second call to start while a guest run is active
(entry configured, a token outstanding, done not set) does not fail with
an already-running condition; it proceeds like a first start, creating an
additional root task, posting an additional token, and raising nothing. -/
theorem C4_second_start_proceeds (w : QGuiApp.World) (e : Nat)
    (he : w.helper.entry = some e) (hactive : w.qtQueue ≠ [])
    (hd : w.helper.done = false) :
    (QGuiApp.on_worker_started w).1.rootTasks = w.rootTasks + 1 ∧
    (QGuiApp.on_worker_started w).1.qtQueue =
      w.qtQueue ++ List.replicate (w.ngrsScheduled + 1) QGuiApp.tokenEv ∧
    ∀ m, Effect.raised m ∉ (QGuiApp.on_worker_started w).2 := by
  refine ⟨?_, ?_, ?_⟩
  · have h1 : (QGuiApp.on_worker_started w).1 = QGuiApp.step w QGuiApp.Act.start := rfl
    rw [h1, QGuiApp.step_start_of_entry w e he]
  · have h1 : (QGuiApp.on_worker_started w).1 = QGuiApp.step w QGuiApp.Act.start := rfl
    rw [h1, QGuiApp.step_start_of_entry w e he]
  · intro m
    simp [QGuiApp.on_worker_started, he, QGuiApp.run_forever,
          QGuiApp.drainCallbacks_no_raise]

/-- C4 (witness): a concrete active bridge accepts a second start. -/
theorem C4_second_start_proceeds_witness :
    (QGuiApp.on_worker_started ⟨⟨0, some 0, 1, false⟩, 0, [QGuiApp.tokenEv], 1⟩).1.rootTasks = 1 + 1 ∧
    (QGuiApp.on_worker_started ⟨⟨0, some 0, 1, false⟩, 0, [QGuiApp.tokenEv], 1⟩).1.qtQueue =
      [QGuiApp.tokenEv] ++ List.replicate (0 + 1) QGuiApp.tokenEv ∧
    ∀ m, Effect.raised m ∉
      (QGuiApp.on_worker_started ⟨⟨0, some 0, 1, false⟩, 0, [QGuiApp.tokenEv], 1⟩).2 :=
  C4_second_start_proceeds _ 0 rfl (by decide) rfl

/-- C5: the burst-boundary callback `next_guest_run_schedule` performs
exactly two effects in order — stop the guest loop, then post one
re-entry event carrying `continue_loop` — in both variants, and the
carried continuation is interpreted as the bridge's `continue_loop`. -/
theorem C5_burst_boundary_stops_then_posts (wq : QGuiApp.World) (wm : Minimal.World) :
    QGuiApp.next_guest_run_schedule wq =
      ({ wq with qtQueue := wq.qtQueue ++ [AsyncHelper.ReenterQtEvent GuestCont.continueLoop] },
       [Effect.loopStop, Effect.postEvent wq.helper.reenter_qt]) ∧
    QGuiApp.runCont GuestCont.continueLoop = QGuiApp.continue_loop ∧
    Minimal.next_guest_run_schedule wm =
      ({ wm with qtQueue := wm.qtQueue ++ [AsyncHelper.ReenterQtEvent GuestCont.continueLoop] },
       [Effect.loopStop, Effect.postEvent wm.helper.reenter_qt]) := by
  refine ⟨rfl, ?_, rfl⟩
  funext w
  rfl

/-- C6: starting from a Done bridge clears the done flag before the
scheduler runs (the state handed to `run_forever` has `done = false`),
the flag stays false afterwards, and the stale flag does not suppress the
new run's re-entries — resuming after this start schedules and posts as
usual. -/
theorem C6_start_clears_done (w : QGuiApp.World) (e : Nat)
    (he : w.helper.entry = some e) (hd : w.helper.done = true) :
    (QGuiApp.startPrepared w).helper.done = false ∧
    (QGuiApp.on_worker_started w).1.helper.done = false ∧
    (QGuiApp.continue_loop (QGuiApp.on_worker_started w).1).2 =
      [Effect.callSoon, Effect.loopStop, Effect.postEvent w.helper.reenter_qt] := by
  have h1 : (QGuiApp.on_worker_started w).1 = QGuiApp.step w QGuiApp.Act.start := rfl
  rw [h1, QGuiApp.step_start_of_entry w e he]
  refine ⟨rfl, rfl, ?_⟩
  rw [QGuiApp.continue_loop_effects_of_not_done] <;> rfl

/-- C6 (witness): a concrete Done bridge restarted by start has a fresh
done flag and working re-entries. -/
theorem C6_start_clears_done_witness :
    (QGuiApp.startPrepared ⟨⟨0, some 0, 1, true⟩, 0, [], 1⟩).helper.done = false ∧
    (QGuiApp.on_worker_started ⟨⟨0, some 0, 1, true⟩, 0, [], 1⟩).1.helper.done = false ∧
    (QGuiApp.continue_loop (QGuiApp.on_worker_started ⟨⟨0, some 0, 1, true⟩, 0, [], 1⟩).1).2 =
      [Effect.callSoon, Effect.loopStop, Effect.postEvent 0] :=
  C6_start_clears_done _ 0 rfl rfl

/-- C7: a Re-entry Token (an event built by `ReenterQtEvent`, whose type
is `QEvent.User + 1`) delivered to the receiver invokes its carried
continuation exactly once and is reported handled (`true`). -/
theorem C7_token_invokes_continuation_once (f : GuestCont) :
    AsyncHelper.ReenterQtObject.event (AsyncHelper.ReenterQtEvent f) =
      Except.ok (true, [f]) ∧
    (AsyncHelper.ReenterQtEvent f).type = QEventUser + 1 := by
  constructor
  · simp [AsyncHelper.ReenterQtObject.event, AsyncHelper.ReenterQtEvent]
  · rfl

/-- C8: the handler registered on the host shutdown notification
terminates the process immediately with the distinguished non-zero
status 5 and performs nothing else (no cleanup of in-flight tasks). -/
theorem C8_about_to_quit_exits_5 :
    aboutToQuitHandler = [Effect.osExit 5] ∧ (5 : Nat) ≠ 0 :=
  ⟨rfl, by decide⟩

/-- C9: an event whose type is not `QEvent.User + 1` is reported
unhandled (`false`), no continuation is invoked, and the event's `fn`
attribute is never accessed — in particular a foreign event with no such
attribute raises no `AttributeError`. -/
theorem C9_foreign_event_unhandled (ev : QEventT) (h : ev.type ≠ QEventUser + 1) :
    AsyncHelper.ReenterQtObject.event ev = Except.ok (false, []) := by
  simp [AsyncHelper.ReenterQtObject.event, h]

/-- C9 (witness): a concrete foreign event without an `fn` attribute is
safely ignored. -/
theorem C9_foreign_event_unhandled_witness :
    AsyncHelper.ReenterQtObject.event ⟨0, none⟩ = Except.ok (false, []) :=
  C9_foreign_event_unhandled ⟨0, none⟩ (by decide)

/-- C10: `set_entry` updates only the pending-entry-point reference; the
receiver object and the loop object are unchanged (same identities), the
entry becomes the given value, and no effect — in particular no posted
token — occurs. -/
theorem C10_set_entry_frame (h : Minimal.HelperState) (e : Option Nat) :
    (Minimal.set_entry h e).1.reenter_qt = h.reenter_qt ∧
    (Minimal.set_entry h e).1.loop = h.loop ∧
    (Minimal.set_entry h e).1.entry = e ∧
    (Minimal.set_entry h e).2 = [] :=
  ⟨rfl, rfl, rfl, rfl⟩
